import Mathlib

/-!
# Verification of the tg-board-game dialogue bot (src/src/main.rs)

A shallow embedding of the bot's per-conversation dialogue state machine,
command interpretation, message dispatch and callback handling, followed by
theorems settling the specification's claims.

Machine integers (`i32`) are modelled as `Int` together with an explicit
two's-complement wraparound `wrap32` where the source performs `i32`
arithmetic, and an explicit range check `parseI32` where the source calls
`str::parse::<i32>()`.  Fallible handling is modelled with `Except`: the
Rust `?` operator and `unwrap` panics become explicit error values.
-/

namespace TgBoard

/-- Least value of an `i32`, `-2^31`. -/
def i32Min : Int := -(2 ^ 31)

/-- Greatest value of an `i32`, `2^31 - 1`. -/
def i32Max : Int := 2 ^ 31 - 1

/-- Two's-complement wraparound of an integer into the signed 32-bit range,
the release-mode semantics of Rust `i32` addition and subtraction overflow. -/
def wrap32 (z : Int) : Int := (z + 2 ^ 31) % 2 ^ 32 - 2 ^ 31

/-- One step of decimal accumulation; a non-digit character poisons the
accumulator for good (mirrors Rust integer parsing, which rejects any
non-digit after the optional sign). -/
def digitStep (acc : Option Nat) (c : Char) : Option Nat :=
  match acc with
  | none => none
  | some a => if c.isDigit then some (a * 10 + (c.toNat - '0'.toNat)) else none

/-- The decimal value of a digit sequence, `none` if any character is not a
digit. -/
def digitsVal (cs : List Char) : Option Nat :=
  cs.foldl digitStep (some 0)

/-- Strip the optional leading `+`/`-` sign, yielding the sign factor and
the remaining characters. -/
def signSplit : List Char → Int × List Char
  | '+' :: r => (1, r)
  | '-' :: r => (-1, r)
  | r => (1, r)

/-- Rust `str::parse::<i32>()`: an optional `+`/`-` sign followed by at least
one decimal digit, rejecting anything else and rejecting values outside the
signed 32-bit range. -/
def parseI32 (s : String) : Option Int :=
  match signSplit s.data with
  | (sign, rest) =>
    if rest.isEmpty then none
    else
      match digitsVal rest with
      | none => none
      | some m =>
        let v : Int := sign * (m : Int)
        if i32Min ≤ v ∧ v ≤ i32Max then some v else none

/-- The dialogue state enum `State` of main.rs (lines 23-40).  The spec calls
`GotNumber` "HasNumber", `AddNumber` "Adding", `SubNumber` "Subtracting" and
`BattlePlayer` "AwaitingBattleChoice". -/
inductive State
  | Start
  | GotNumber (n : Int)
  | AddNumber (n : Int)
  | SubNumber (n : Int)
  | BattlePlayer
  deriving DecidableEq, Repr

/-- `impl Default for State` (main.rs lines 42-46): the default is `Start`. -/
def State.default : State := State.Start

/-- The `i32` payload the derive-generated dispatch extracts from a state
variant and injects as the `num : i32` dependency of `handle_got_number`;
`Start` and `BattlePlayer` carry none. -/
def stateNum : State → Option Int
  | .Start => none
  | .GotNumber n => some n
  | .AddNumber n => some n
  | .SubNumber n => some n
  | .BattlePlayer => none

/-- One cell of an inline keyboard: visible label and callback payload, as
built by `InlineKeyboardButton::callback(text, callback_data)`. -/
structure InlineKeyboardButton where
  text : String
  callbackData : String
  deriving DecidableEq, Repr

/-- One outbound `send_message` call: its text and, when `.reply_markup` was
attached, the inline keyboard. -/
structure Reply where
  text : String
  keyboard : Option (List (List InlineKeyboardButton))
  deriving DecidableEq, Repr

/-- A `send_message` without a keyboard. -/
def plainReply (t : String) : Reply := ⟨t, none⟩

/-- The effect of a handler on the persisted dialogue record of the current
conversation: leave it untouched, overwrite it (`dialogue.update`), or delete
it (`dialogue.reset`). -/
inductive StoreEffect
  | keep
  | put (s : State)
  | del
  deriving DecidableEq, Repr

/-- What a successful message handler produced: its storage effect and the
messages it sent, in order. -/
structure Output where
  store : StoreEffect
  sends : List Reply
  deriving DecidableEq, Repr

/-- The ways an event's handling can abort instead of completing:
`panicNoText` is the `msg.text().unwrap()` panic on a message with no text
payload (main.rs lines 92 and 116); `parseIntError` is the `?`-propagated
failure of `number_str.parse::<i32>()` in the `/add` and `/sub` arms
(main.rs lines 129 and 134); `missingDependency` is the dependency-injection
failure when dispatch routes the payload-less `BattlePlayer` variant to
`handle_got_number`, whose `num : i32` parameter then has no source. -/
inductive HandlerError
  | panicNoText
  | parseIntError
  | missingDependency
  deriving DecidableEq, Repr

/-- `handle_start` (main.rs lines 91-107): unwrap the message text (panicking
when absent), try to parse it as an `i32`; on success store `GotNumber(n)`
and confirm, otherwise ask for a number and leave the state alone. -/
def handle_start (text : Option String) : Except HandlerError Output :=
  match text with
  | none => .error .panicNoText
  | some t =>
    match parseI32 t with
    | some number =>
      .ok ⟨.put (.GotNumber number),
        [plainReply ("Remembered number " ++ toString number ++ ". Now use /get or /reset")]⟩
    | none => .ok ⟨.keep, [plainReply "Please, send me a number"]⟩

/-- The `Command` enum of main.rs (lines 48-61), derived with
`#[command(rename = "lowercase")]`: the recognized words are `/get`,
`/reset`, `/add <arg>`, `/sub <arg>` and `/battle`. -/
inductive Command
  | Get
  | Reset
  | Add (arg : String)
  | Sub (arg : String)
  | Battle
  deriving DecidableEq, Repr

/-- Split a character list at the first occurrence of `c`: the part before
it, and — when `c` occurs — the part after it (Rust `splitn(2, c)`). -/
def breakOnChar (c : Char) : List Char → List Char × Option (List Char)
  | [] => ([], none)
  | a :: rest =>
    if a = c then ([], some rest)
    else
      match breakOnChar c rest with
      | (pre, post) => (a :: pre, post)

/-- Split a character list into maximal whitespace-free words, discarding the
whitespace (Rust `split_whitespace`), with `acc` the reversed current word. -/
def splitWSAux : List Char → List Char → List (List Char)
  | [], acc => if acc.isEmpty then [] else [acc.reverse]
  | c :: rest, acc =>
    if c.isWhitespace then
      if acc.isEmpty then splitWSAux rest [] else acc.reverse :: splitWSAux rest []
    else splitWSAux rest (c :: acc)

/-- The whitespace-separated words of a character list. -/
def splitWS (cs : List Char) : List (List Char) := splitWSAux cs []

/-- Modelled from the spec: the optional trailing mention-suffix addressed to
the bot's own identity is stripped from the command word before matching,
case-insensitively; a mention of some other identity is a parse failure.
(The stripping itself is done by the teloxide `BotCommand` parser, library
code not under src/.)  Returns the command word when the mention, if any,
matches `botName`. -/
def stripMentionSuffix (word : List Char) (botName : String) : Option (List Char) :=
  match breakOnChar '@' word with
  | (cmdW, none) => some cmdW
  | (cmdW, some bot) =>
    if bot.map Char.toLower = botName.data.map Char.toLower then some cmdW else none

/-- Modelled from the spec: `Command::parse(text, bot_name)` of the teloxide
`BotCommand` derive (library code not under src/).  Per the spec's Command
Interpreter section, raw text is parsed into the closed command set by the
slash-prefixed convention with lower-cased command names and mention
stripping; unrecognized text is a parse failure.  The first word (up to the
first space) is the command word; the remaining whitespace-separated words
are the arguments, whose count must match the variant's field count. -/
def parseCommand (text botName : String) : Option Command :=
  match breakOnChar ' ' text.data with
  | (w, restOpt) =>
    match stripMentionSuffix w botName with
    | none => none
    | some cmdW =>
      let args := splitWS (restOpt.getD [])
      if cmdW = "/get".data then
        if args = [] then some .Get else none
      else if cmdW = "/reset".data then
        if args = [] then some .Reset else none
      else if cmdW = "/add".data then
        match args with
        | [a] => some (.Add (String.mk a))
        | _ => none
      else if cmdW = "/sub".data then
        match args with
        | [a] => some (.Sub (String.mk a))
        | _ => none
      else if cmdW = "/battle".data then
        if args = [] then some .Battle else none
      else none

/-- `chunks(3)` of the Rust slice API as used on the button-name array:
consecutive groups of three, the last group possibly shorter. -/
def chunks3 {α : Type} : List α → List (List α)
  | [] => []
  | [a] => [[a]]
  | [a, b] => [[a, b]]
  | a :: b :: c :: rest => [a, b, c] :: chunks3 rest

/-- The `button_name` array of the `/battle` arm (main.rs line 141). -/
def button_name : List String := ["0", "1", "2", "3", "4", "5", "6", "7", "8"]

/-- The inline keyboard built by the `/battle` arm (main.rs lines 139-149):
`button_name` in chunks of 3, each name becoming a callback button whose
label and payload are both that name. -/
def battleKeyboard : List (List InlineKeyboardButton) :=
  (chunks3 button_name).map fun row => row.map fun name => ⟨name, name⟩

/-- `handle_got_number` (main.rs lines 109-161): unwrap the message text
(panicking when absent), parse it as a command and dispatch; `/get` replies
with the stored number, `/reset` deletes the record, `/add`/`/sub` parse
their argument (`?`-propagating failure) and store the wrapped sum or
difference, `/battle` sends the keyboard, and a command-parse failure gets
the fallback reply.  Only `/add` and `/sub` change the stored state. -/
def handle_got_number (num : Int) (text : Option String) (botName : String) :
    Except HandlerError Output :=
  match text with
  | none => .error .panicNoText
  | some ans =>
    match parseCommand ans botName with
    | some .Get =>
      .ok ⟨.keep, [plainReply ("Here is your number: " ++ toString num)]⟩
    | some .Reset =>
      .ok ⟨.del, [plainReply "Number resetted"]⟩
    | some (.Add numberStr) =>
      match parseI32 numberStr with
      | none => .error .parseIntError
      | some number =>
        .ok ⟨.put (.AddNumber (wrap32 (num + number))),
          [plainReply ("Number added, now " ++ toString (wrap32 (num + number)))]⟩
    | some (.Sub numberStr) =>
      match parseI32 numberStr with
      | none => .error .parseIntError
      | some number =>
        .ok ⟨.put (.SubNumber (wrap32 (num - number))),
          [plainReply ("Number subed, now " ++ toString (wrap32 (num - number)))]⟩
    | some .Battle =>
      .ok ⟨.keep, [⟨"Let's battle!", some battleKeyboard⟩]⟩
    | none =>
      .ok ⟨.keep, [plainReply "Please, send /get or /reset"]⟩

/-- The message branch of the dispatcher (main.rs lines 78-80,
`dispatch_by::<State>` with the `#[handler(...)]` annotations of lines
23-40): `Start` is routed to `handle_start`; the three payload-bearing
variants are routed to `handle_got_number` with their `i32` payload injected
as its `num` dependency.  `BattlePlayer` is also annotated with
`handle_got_number` (main.rs lines 38-39) but carries no payload, so the
`num : i32` dependency required by that handler has no source and dependency
resolution fails at runtime; this is modelled as the `missingDependency`
error. -/
def messageStep (s : State) (text : Option String) (botName : String) :
    Except HandlerError Output :=
  match s with
  | .Start => handle_start text
  | .GotNumber n => handle_got_number n text botName
  | .AddNumber n => handle_got_number n text botName
  | .SubNumber n => handle_got_number n text botName
  | .BattlePlayer => .error .missingDependency

/-- The dialogue state after a handler's storage effect: `keep` leaves the
current state, `put` replaces it, and `del` removes the record, which by
`impl Default for State` is read back as `Start`. -/
def nextState (s : State) : StoreEffect → State
  | .keep => s
  | .put s' => s'
  | .del => .Start

/-- The stored dialogue state after one message event; an aborted event
(panic or propagated error) never reaches `dialogue.update`, so the stored
state is untouched. -/
def stepState (bn : String) (s : State) (text : Option String) : State :=
  match messageStep s text bn with
  | .ok out => nextState s out.store
  | .error _ => s

/-- The stored state after `k` repetitions of the same message event. -/
def iterateMsg (bn : String) (text : Option String) : Nat → State → State
  | 0, s => s
  | k + 1, s => iterateMsg bn text k (stepState bn s text)

/-- The State Store: a mapping from conversation identity (chat id) to the
persisted dialogue record, absence meaning no record. -/
def Store : Type := Nat → Option State

/-- `Storage::get_dialogue` combined with `impl Default for State`
(main.rs lines 42-46): an absent record reads as the default `Start`. -/
def getState (store : Store) (chat : Nat) : State := (store chat).getD .Start

/-- Modelled from the spec: applying a handler's storage effect to the
store.  Per the spec's State Store contract, `dialogue.update` overwrites
the conversation's record and `dialogue.reset` deletes it (the spec: "From
any payload-bearing state, `/reset` always yields `Start` and deletes the
persisted record"); the teloxide `Dialogue` methods are library code not
under src/.  Operations are scoped to the conversation's own key. -/
def applyStoreEffect (store : Store) (chat : Nat) : StoreEffect → Store
  | .keep => store
  | .put s => fun c => if c = chat then some s else store c
  | .del => fun c => if c = chat then none else store c

/-- One full message event against the store: load the conversation's state
(default `Start`), run the dispatched handler, and on success persist its
storage effect and emit its sends; an aborted event leaves the store as it
was and sends nothing. -/
def eventStep (store : Store) (chat : Nat) (text : Option String) (botName : String) :
    Except HandlerError (Store × List Reply) :=
  match messageStep (getState store chat) text botName with
  | .ok out => .ok (applyStoreEffect store chat out.store, out.sends)
  | .error e => .error e

/-- The observables of an event at one conversation: that conversation's
stored record afterwards, and the replies sent. -/
def obsAt (chat : Nat) (r : Except HandlerError (Store × List Reply)) :
    Except HandlerError (Option State × List Reply) :=
  match r with
  | .ok (store, sends) => .ok (store chat, sends)
  | .error e => .error e

/-- A callback query as `handle_callback` reads it: its id, the optional
`data` payload, the clicking user's `full_name()`, and the originating
message's (id, chat id) when Telegram could still resolve it. -/
structure CallbackQuery where
  id : String
  data : Option String
  fromName : String
  message : Option (Nat × Nat)
  deriving DecidableEq, Repr

/-- One observable action of the callback handler. -/
inductive CbEffect
  | answerCallbackQuery (id : String)
  | editMessageText (chatId msgId : Nat) (text : String)
  | logInfo (s : String)
  deriving DecidableEq, Repr

/-- `handle_callback` (main.rs lines 163-180): acknowledge the query, then,
when it carries a payload, either edit the originating message to
"<full name> click <payload>" or, when that message is unresolvable, only
log the payload. -/
def handle_callback (q : CallbackQuery) : List CbEffect :=
  .answerCallbackQuery q.id ::
    match q.data with
    | some qData =>
      match q.message with
      | some (msgId, chatId) =>
        [.editMessageText chatId msgId (q.fromName ++ " click " ++ qData)]
      | none => [.logInfo qData]
    | none => []

/-- Whether a callback effect is the acknowledgement. -/
def CbEffect.isAnswer : CbEffect → Bool
  | .answerCallbackQuery _ => true
  | _ => false

/-- Whether a callback effect is a message edit. -/
def CbEffect.isEdit : CbEffect → Bool
  | .editMessageText _ _ _ => true
  | _ => false

/-- The dialogue states reachable from a fresh conversation (which starts at
the default `Start`) under successfully handled message events. -/
inductive Reachable (bn : String) : State → Prop
  | start : Reachable bn .Start
  | step {s : State} {t : Option String} {out : Output} :
      Reachable bn s → messageStep s t bn = .ok out →
      Reachable bn (nextState s out.store)

/-! ## Helper lemmas -/

/-- A poisoned accumulator stays poisoned through the digit fold. -/
lemma foldl_digitStep_none (r : List Char) : r.foldl digitStep none = none := by
  induction r with
  | nil => rfl
  | cons c r ih => simpa [List.foldl, digitStep] using ih

/-- A string starting with `/` never parses as an integer. -/
lemma parseI32_slash (s : String) (r : List Char) (h : s.data = '/' :: r) :
    parseI32 s = none := by
  have hd : digitsVal ('/' :: r) = none := by
    simp [digitsVal, List.foldl, digitStep, foldl_digitStep_none]
  unfold parseI32
  rw [h]
  simp [signSplit, hd]

/-- `/get` parses to `Get` whatever the bot's name is. -/
lemma parseCommand_get (bn : String) : parseCommand "/get" bn = some .Get := rfl

/-- `/reset` parses to `Reset` whatever the bot's name is. -/
lemma parseCommand_reset (bn : String) : parseCommand "/reset" bn = some .Reset := rfl

/-- `/battle` parses to `Battle` whatever the bot's name is. -/
lemma parseCommand_battle (bn : String) : parseCommand "/battle" bn = some .Battle := rfl

/-! ## Claims -/

/-- C1: for every 32-bit integer N, a message whose text parses as N handled
in state `Start` stores `GotNumber N` ("HasNumber(N)") and replies
"Remembered number N. Now use /get or /reset" with N substituted. -/
theorem c1_start_remembers_number (bn t : String) (n : Int) (h : parseI32 t = some n) :
    messageStep .Start (some t) bn =
      .ok ⟨.put (.GotNumber n),
        [plainReply ("Remembered number " ++ toString n ++ ". Now use /get or /reset")]⟩ := by
  simp [messageStep, handle_start, h]

/-- Witness for C1 at the input "5". -/
theorem c1_start_remembers_number_witness :
    messageStep .Start (some "5") "testbot" =
      .ok ⟨.put (.GotNumber 5),
        [plainReply ("Remembered number " ++ toString (5 : Int) ++ ". Now use /get or /reset")]⟩ :=
  c1_start_remembers_number "testbot" "5" 5 rfl

/-- C2 (amended): from any of the three payload-bearing states with value N,
`/get` replies "Here is your number: N" and leaves the persisted store
entirely unchanged. -/
theorem c2_get_replies_number (bn : String) (store : Store) (chat : Nat) (s : State) (n : Int)
    (hs : getState store chat = s) (hn : stateNum s = some n) :
    eventStep store chat (some "/get") bn =
      .ok (store, [plainReply ("Here is your number: " ++ toString n)]) := by
  subst hs
  cases hg : getState store chat <;> rw [hg] at hn <;>
    simp [stateNum] at hn <;>
    subst hn <;>
    simp [eventStep, hg, messageStep, handle_got_number, parseCommand_get, applyStoreEffect]

/-- Witness for C2 with a stored `GotNumber 42`. -/
theorem c2_get_replies_number_witness :
    eventStep (fun c => if c = 7 then some (.GotNumber 42) else none) 7 (some "/get") "testbot" =
      .ok (fun c => if c = 7 then some (.GotNumber 42) else none,
        [plainReply ("Here is your number: " ++ toString (42 : Int))]) :=
  c2_get_replies_number "testbot" _ 7 (.GotNumber 42) 42 rfl rfl

/-- C2 counterexample: in `BattlePlayer` ("AwaitingBattleChoice") there is no
stored value N at all (`stateNum` is `none`), and dispatching `/get` there
fails with a dependency-resolution error instead of sending any reply. -/
theorem c2_battle_state_counterexample :
    stateNum .BattlePlayer = none ∧
    messageStep .BattlePlayer (some "/get") "testbot" = .error .missingDependency :=
  ⟨rfl, rfl⟩

/-- C10: in state `Start` no command is recognized: any text starting with
`/` (hence not parsing as an integer) gets the reply "Please, send me a
number" and the state stays `Start` (storage effect `keep`). -/
theorem c10_no_commands_in_start (bn t : String) (r : List Char) (h : t.data = '/' :: r) :
    messageStep .Start (some t) bn = .ok ⟨.keep, [plainReply "Please, send me a number"]⟩ := by
  simp [messageStep, handle_start, parseI32_slash t r h]

/-- Witness for C10 at the four commands the claim lists. -/
theorem c10_no_commands_in_start_witness :
    messageStep .Start (some "/get") "testbot" =
      .ok ⟨.keep, [plainReply "Please, send me a number"]⟩ ∧
    messageStep .Start (some "/reset") "testbot" =
      .ok ⟨.keep, [plainReply "Please, send me a number"]⟩ ∧
    messageStep .Start (some "/add 1") "testbot" =
      .ok ⟨.keep, [plainReply "Please, send me a number"]⟩ ∧
    messageStep .Start (some "/battle") "testbot" =
      .ok ⟨.keep, [plainReply "Please, send me a number"]⟩ :=
  ⟨c10_no_commands_in_start "testbot" "/get" _ rfl,
   c10_no_commands_in_start "testbot" "/reset" _ rfl,
   c10_no_commands_in_start "testbot" "/add 1" _ rfl,
   c10_no_commands_in_start "testbot" "/battle" _ rfl⟩

/-- C4: from any payload-bearing state with value N, `/add K` stores
`AddNumber` ("Adding") of the two's-complement 32-bit wraparound of N+K and
replies "Number added, now N+K", and `/sub K` symmetrically stores
`SubNumber` ("Subtracting") of the wraparound of N-K and replies
"Number subed, now N-K". -/
theorem c4_add_sub_wraparound (bn tA tS a b : String) (s : State) (n k j : Int)
    (hs : stateNum s = some n)
    (hA : parseCommand tA bn = some (.Add a)) (ha : parseI32 a = some k)
    (hS : parseCommand tS bn = some (.Sub b)) (hb : parseI32 b = some j) :
    messageStep s (some tA) bn =
      .ok ⟨.put (.AddNumber (wrap32 (n + k))),
        [plainReply ("Number added, now " ++ toString (wrap32 (n + k)))]⟩ ∧
    messageStep s (some tS) bn =
      .ok ⟨.put (.SubNumber (wrap32 (n - j))),
        [plainReply ("Number subed, now " ++ toString (wrap32 (n - j)))]⟩ := by
  cases s <;> simp [stateNum] at hs <;> subst hs <;>
    simp [messageStep, handle_got_number, hA, ha, hS, hb]

/-- Witness for C4 at the stored value 2147483647 (`i32::MAX`): adding 1
wraps to -2147483648, subtracting 5 gives 2147483642. -/
theorem c4_add_sub_wraparound_witness :
    (messageStep (.GotNumber 2147483647) (some "/add 1") "testbot" =
      .ok ⟨.put (.AddNumber (wrap32 (2147483647 + 1))),
        [plainReply ("Number added, now " ++ toString (wrap32 (2147483647 + 1)))]⟩ ∧
    messageStep (.GotNumber 2147483647) (some "/sub 5") "testbot" =
      .ok ⟨.put (.SubNumber (wrap32 (2147483647 - 5))),
        [plainReply ("Number subed, now " ++ toString (wrap32 (2147483647 - 5)))]⟩) ∧
    wrap32 (2147483647 + 1) = -2147483648 ∧ wrap32 (2147483647 - 5) = 2147483642 :=
  ⟨c4_add_sub_wraparound "testbot" "/add 1" "/sub 5" "1" "5" (.GotNumber 2147483647)
      2147483647 1 5 rfl rfl rfl rfl rfl,
   by decide, by decide⟩

/-- C5: from any payload-bearing state, `/add` or `/sub` with an argument
that does not parse as an `i32` aborts the event with the propagated
`parse()?` error: no reply of any kind is sent (in particular not the
fallback reply) and the persisted store is untouched. -/
theorem c5_bad_arith_arg_aborts (bn t a : String) (s : State) (n : Int)
    (hs : stateNum s = some n)
    (hc : parseCommand t bn = some (.Add a) ∨ parseCommand t bn = some (.Sub a))
    (ha : parseI32 a = none) :
    messageStep s (some t) bn = .error .parseIntError ∧
    ∀ (store : Store) (chat : Nat), getState store chat = s →
      eventStep store chat (some t) bn = .error .parseIntError := by
  have hmain : messageStep s (some t) bn = .error .parseIntError := by
    cases s <;> simp [stateNum] at hs <;> subst hs <;>
      rcases hc with hc | hc <;> simp [messageStep, handle_got_number, hc, ha]
  exact ⟨hmain, fun store chat hst => by simp [eventStep, hst, hmain]⟩

/-- Witness for C5 at `/add abc` from `GotNumber 5`. -/
theorem c5_bad_arith_arg_aborts_witness :
    messageStep (.GotNumber 5) (some "/add abc") "testbot" = .error .parseIntError ∧
    ∀ (store : Store) (chat : Nat), getState store chat = .GotNumber 5 →
      eventStep store chat (some "/add abc") "testbot" = .error .parseIntError :=
  c5_bad_arith_arg_aborts "testbot" "/add abc" "abc" (.GotNumber 5) 5 rfl (Or.inl rfl) rfl

/-- C6: from any payload-bearing state, `/battle` leaves the persisted store
entirely unchanged and sends "Let's battle!" with a keyboard of exactly 9
cells in 3 rows of 3, labeled "0".."8" in row-major order, each cell's
callback payload equal to its visible label. -/
theorem c6_battle_keyboard (bn : String) (store : Store) (chat : Nat) (s : State) (n : Int)
    (hs : getState store chat = s) (hn : stateNum s = some n) :
    eventStep store chat (some "/battle") bn =
      .ok (store, [⟨"Let's battle!", some battleKeyboard⟩]) ∧
    battleKeyboard.flatten.length = 9 ∧
    battleKeyboard.map List.length = [3, 3, 3] ∧
    battleKeyboard.flatten.map InlineKeyboardButton.text =
      ["0", "1", "2", "3", "4", "5", "6", "7", "8"] ∧
    ∀ btn ∈ battleKeyboard.flatten, btn.callbackData = btn.text := by
  refine ⟨?_, by decide, by decide, by decide, by decide⟩
  subst hs
  cases hg : getState store chat <;> rw [hg] at hn <;>
    simp [stateNum] at hn <;>
    simp [eventStep, hg, messageStep, handle_got_number, parseCommand_battle, applyStoreEffect]

/-- Witness for C6 with a stored `SubNumber (-3)`. -/
theorem c6_battle_keyboard_witness :
    eventStep (fun c => if c = 2 then some (.SubNumber (-3)) else none) 2
        (some "/battle") "testbot" =
      .ok (fun c => if c = 2 then some (.SubNumber (-3)) else none,
        [⟨"Let's battle!", some battleKeyboard⟩]) ∧
    battleKeyboard.flatten.length = 9 :=
  ⟨(c6_battle_keyboard "testbot" (fun c => if c = 2 then some (.SubNumber (-3)) else none)
      2 (.SubNumber (-3)) (-3) rfl rfl).1,
   (c6_battle_keyboard "testbot" (fun c => if c = 2 then some (.SubNumber (-3)) else none)
      2 (.SubNumber (-3)) (-3) rfl rfl).2.1⟩

/-- C7: non-numeric text handled in `Start` keeps the state at `Start` and
replies "Please, send me a number"; repeating the same message any number of
times still leaves the stored state at `Start`. -/
theorem c7_start_nonnumeric_self_loop (bn t : String) (h : parseI32 t = none) :
    messageStep .Start (some t) bn = .ok ⟨.keep, [plainReply "Please, send me a number"]⟩ ∧
    ∀ k : Nat, iterateMsg bn (some t) k .Start = .Start := by
  have hstep : messageStep .Start (some t) bn =
      .ok ⟨.keep, [plainReply "Please, send me a number"]⟩ := by
    simp [messageStep, handle_start, h]
  refine ⟨hstep, fun k => ?_⟩
  induction k with
  | zero => rfl
  | succ k ih => simpa [iterateMsg, stepState, hstep, nextState] using ih

/-- Witness for C7 at the input "hello", iterated 3 times. -/
theorem c7_start_nonnumeric_self_loop_witness :
    messageStep .Start (some "hello") "testbot" =
      .ok ⟨.keep, [plainReply "Please, send me a number"]⟩ ∧
    iterateMsg "testbot" (some "hello") 3 .Start = .Start :=
  ⟨(c7_start_nonnumeric_self_loop "testbot" "hello" rfl).1,
   (c7_start_nonnumeric_self_loop "testbot" "hello" rfl).2 3⟩

/-- C3: from any payload-bearing state, `/reset` replies "Number resetted"
and deletes the persisted record of the conversation (so the record reads
back as absent, which `impl Default for State` makes equivalent to `Start`),
and every subsequent event is observably handled — same record afterwards,
same replies or abort — exactly as for a conversation that was never set. -/
theorem c3_reset_deletes_record (bn : String) (store : Store) (chat : Nat) (s : State) (n : Int)
    (hs : store chat = some s) (hn : stateNum s = some n) :
    eventStep store chat (some "/reset") bn =
      .ok (applyStoreEffect store chat .del, [plainReply "Number resetted"]) ∧
    applyStoreEffect store chat .del chat = none ∧
    getState (applyStoreEffect store chat .del) chat = .Start ∧
    ∀ t : Option String,
      obsAt chat (eventStep (applyStoreEffect store chat .del) chat t bn) =
        obsAt chat (eventStep (fun _ => none) chat t bn) := by
  have hget : getState store chat = s := by simp [getState, hs]
  have hchat : applyStoreEffect store chat .del chat = none := by
    simp [applyStoreEffect]
  have hget' : getState (applyStoreEffect store chat .del) chat = .Start := by
    simp [getState, hchat]
  have hmain : eventStep store chat (some "/reset") bn =
      .ok (applyStoreEffect store chat .del, [plainReply "Number resetted"]) := by
    cases s <;> simp [stateNum] at hn <;>
      simp [eventStep, hget, messageStep, handle_got_number, parseCommand_reset]
  refine ⟨hmain, hchat, hget', fun t => ?_⟩
  have hgetEmpty : getState (fun _ => none : Store) chat = .Start := rfl
  unfold eventStep
  rw [hget', hgetEmpty]
  cases hms : messageStep .Start t bn with
  | error e => simp [obsAt]
  | ok out =>
    cases hst : out.store <;> simp [obsAt, applyStoreEffect, hst]

/-- Witness for C3 with a stored `AddNumber 9`. -/
theorem c3_reset_deletes_record_witness :
    eventStep (fun c => if c = 4 then some (.AddNumber 9) else none) 4 (some "/reset") "testbot" =
      .ok (applyStoreEffect (fun c => if c = 4 then some (.AddNumber 9) else none) 4 .del,
        [plainReply "Number resetted"]) ∧
    applyStoreEffect (fun c => if c = 4 then some (.AddNumber 9) else none) 4 .del 4 = none ∧
    getState (applyStoreEffect (fun c => if c = 4 then some (.AddNumber 9) else none) 4 .del) 4 =
      .Start ∧
    ∀ t : Option String,
      obsAt 4 (eventStep
        (applyStoreEffect (fun c => if c = 4 then some (.AddNumber 9) else none) 4 .del)
        4 t "testbot") =
        obsAt 4 (eventStep (fun _ => none) 4 t "testbot") :=
  c3_reset_deletes_record "testbot" (fun c => if c = 4 then some (.AddNumber 9) else none)
    4 (.AddNumber 9) 9 rfl rfl

/-- C9: every callback event is acknowledged exactly once (and first); when
it carries a payload and its originating message is resolvable, exactly one
edit is performed, setting that message to "<full name> click <payload>";
when the originating message is unresolvable, no edit is performed and the
payload is only logged. -/
theorem c9_callback_ack_and_edit (q : CallbackQuery) :
    (handle_callback q).countP CbEffect.isAnswer = 1 ∧
    (handle_callback q).head? = some (.answerCallbackQuery q.id) ∧
    (∀ d mid chat, q.data = some d → q.message = some (mid, chat) →
      (handle_callback q).filter CbEffect.isEdit =
        [.editMessageText chat mid (q.fromName ++ " click " ++ d)]) ∧
    (q.message = none →
      (handle_callback q).filter CbEffect.isEdit = [] ∧
      ∀ d, q.data = some d → CbEffect.logInfo d ∈ handle_callback q) := by
  obtain ⟨id, data, name, msg⟩ := q
  cases data with
  | none =>
    cases msg with
    | none =>
      simp [handle_callback, CbEffect.isAnswer, CbEffect.isEdit, List.countP_cons]
    | some m =>
      simp [handle_callback, CbEffect.isAnswer, CbEffect.isEdit, List.countP_cons]
  | some d0 =>
    cases msg with
    | none =>
      simp [handle_callback, CbEffect.isAnswer, CbEffect.isEdit, List.countP_cons]
    | some m =>
      obtain ⟨mid0, chat0⟩ := m
      refine ⟨?_, ?_, ?_, ?_⟩
      · simp [handle_callback, CbEffect.isAnswer, List.countP_cons]
      · simp [handle_callback]
      · intro d mid chat hd hm
        injection hd with hd
        injection hm with hm
        injection hm with hm1 hm2
        subst hd; subst hm1; subst hm2
        simp [handle_callback, CbEffect.isAnswer, CbEffect.isEdit]
      · intro h; exact absurd h (by simp)

/-- Witness for C9 at a concrete resolvable click and a concrete
unresolvable one. -/
theorem c9_callback_ack_and_edit_witness :
    (handle_callback ⟨"q1", some "3", "Alice Smith", some (10, 77)⟩).filter CbEffect.isEdit =
      [.editMessageText 77 10 ("Alice Smith" ++ " click " ++ "3")] ∧
    (handle_callback ⟨"q1", some "3", "Alice Smith", some (10, 77)⟩).countP CbEffect.isAnswer
      = 1 ∧
    (handle_callback ⟨"q2", some "3", "Bob", none⟩).filter CbEffect.isEdit = [] :=
  ⟨(c9_callback_ack_and_edit ⟨"q1", some "3", "Alice Smith", some (10, 77)⟩).2.2.1
      "3" 10 77 rfl rfl,
   (c9_callback_ack_and_edit ⟨"q1", some "3", "Alice Smith", some (10, 77)⟩).1,
   ((c9_callback_ack_and_edit ⟨"q2", some "3", "Bob", none⟩).2.2.2 rfl).1⟩

/-- Whether `text` is an `/add` or `/sub` command whose argument fails to
parse as an `i32` — the one text shape whose handling aborts (C5). -/
def badArith (text botName : String) : Bool :=
  match parseCommand text botName with
  | some (.Add a) => (parseI32 a).isNone
  | some (.Sub a) => (parseI32 a).isNone
  | _ => false

/-- Whether the state's own handler recognizes `text`: in `Start` the only
recognized input is an integer, in every other dispatched state the only
recognized inputs are the commands.  The complement is the per-(state, event)
unrecognized-input case of the transition table. -/
def recognizedInput (s : State) (text botName : String) : Bool :=
  match s with
  | .Start => (parseI32 text).isSome
  | _ => (parseCommand text botName).isSome

/-- The only states `handle_got_number` ever stores are `AddNumber` and
`SubNumber` values. -/
lemma handle_got_number_put (num : Int) (t : Option String) (bn : String) (out : Output)
    (s' : State) (h : handle_got_number num t bn = .ok out) (hp : out.store = .put s') :
    (∃ m, s' = State.AddNumber m) ∨ ∃ m, s' = State.SubNumber m := by
  cases t with
  | none => simp [handle_got_number] at h
  | some ans =>
    cases hc : parseCommand ans bn with
    | none =>
      simp [handle_got_number, hc] at h
      rw [← h] at hp; simp at hp
    | some cmd =>
      cases cmd with
      | Get =>
        simp [handle_got_number, hc] at h
        rw [← h] at hp; simp at hp
      | Reset =>
        simp [handle_got_number, hc] at h
        rw [← h] at hp; simp at hp
      | Add a =>
        cases hpa : parseI32 a with
        | none => simp [handle_got_number, hc, hpa] at h
        | some k =>
          simp [handle_got_number, hc, hpa] at h
          rw [← h] at hp
          simp at hp
          exact Or.inl ⟨wrap32 (num + k), hp.symm⟩
      | Sub a =>
        cases hpa : parseI32 a with
        | none => simp [handle_got_number, hc, hpa] at h
        | some k =>
          simp [handle_got_number, hc, hpa] at h
          rw [← h] at hp
          simp at hp
          exact Or.inr ⟨wrap32 (num - k), hp.symm⟩
      | Battle =>
        simp [handle_got_number, hc] at h
        rw [← h] at hp; simp at hp

/-- Any state a successful message step stores is `GotNumber`, `AddNumber`
or `SubNumber` — never `BattlePlayer`. -/
lemma messageStep_put (s : State) (t : Option String) (bn : String) (out : Output) (s' : State)
    (h : messageStep s t bn = .ok out) (hp : out.store = .put s') :
    (∃ m, s' = State.GotNumber m) ∨ (∃ m, s' = State.AddNumber m) ∨
      ∃ m, s' = State.SubNumber m := by
  cases s with
  | Start =>
    cases t with
    | none => simp [messageStep, handle_start] at h
    | some t' =>
      cases hpt : parseI32 t' with
      | none =>
        simp [messageStep, handle_start, hpt] at h
        rw [← h] at hp; simp at hp
      | some m =>
        simp [messageStep, handle_start, hpt] at h
        rw [← h] at hp
        simp at hp
        exact Or.inl ⟨m, hp.symm⟩
  | GotNumber n => exact Or.inr (handle_got_number_put n t bn out s' h hp)
  | AddNumber n => exact Or.inr (handle_got_number_put n t bn out s' h hp)
  | SubNumber n => exact Or.inr (handle_got_number_put n t bn out s' h hp)
  | BattlePlayer => simp [messageStep] at h

/-- `BattlePlayer` ("AwaitingBattleChoice") is unreachable: the `/battle`
arm never calls `dialogue.update`, so no handled event ever stores it. -/
lemma reachable_ne_battlePlayer (bn : String) (s : State) (h : Reachable bn s) :
    s ≠ State.BattlePlayer := by
  induction h with
  | start => simp
  | step hr hok ih =>
    rename_i s t out
    cases hst : out.store with
    | keep => simpa [nextState, hst] using ih
    | del => simp [nextState, hst]
    | put s' =>
      rcases messageStep_put s t bn out s' hok hst with ⟨m, rfl⟩ | ⟨m, rfl⟩ | ⟨m, rfl⟩ <;>
        simp [nextState, hst]

/-- Every text-bearing message handled by `handle_got_number` that is not an
`/add`//`/sub` with an unparsable argument succeeds, sends exactly one reply,
and keeps the state when the command is unrecognized. -/
lemma handle_got_number_total (num : Int) (t bn : String) (hgood : badArith t bn = false) :
    ∃ out, handle_got_number num (some t) bn = .ok out ∧ out.sends.length = 1 ∧
      (parseCommand t bn = none → out.store = .keep) := by
  cases hc : parseCommand t bn with
  | none =>
    exact ⟨⟨.keep, [plainReply "Please, send /get or /reset"]⟩,
      by simp [handle_got_number, hc], rfl, fun _ => rfl⟩
  | some cmd =>
    cases cmd with
    | Get =>
      exact ⟨⟨.keep, [plainReply ("Here is your number: " ++ toString num)]⟩,
        by simp [handle_got_number, hc], rfl, fun h => Option.noConfusion h⟩
    | Reset =>
      exact ⟨⟨.del, [plainReply "Number resetted"]⟩,
        by simp [handle_got_number, hc], rfl, fun h => Option.noConfusion h⟩
    | Battle =>
      exact ⟨⟨.keep, [⟨"Let's battle!", some battleKeyboard⟩]⟩,
        by simp [handle_got_number, hc], rfl, fun h => Option.noConfusion h⟩
    | Add a =>
      cases hpa : parseI32 a with
      | none =>
        have hb : badArith t bn = true := by simp [badArith, hc, hpa]
        rw [hb] at hgood
        exact Bool.noConfusion hgood
      | some k =>
        exact ⟨⟨.put (.AddNumber (wrap32 (num + k))),
          [plainReply ("Number added, now " ++ toString (wrap32 (num + k)))]⟩,
          by simp [handle_got_number, hc, hpa], rfl, fun h => Option.noConfusion h⟩
    | Sub a =>
      cases hpa : parseI32 a with
      | none =>
        have hb : badArith t bn = true := by simp [badArith, hc, hpa]
        rw [hb] at hgood
        exact Bool.noConfusion hgood
      | some k =>
        exact ⟨⟨.put (.SubNumber (wrap32 (num - k))),
          [plainReply ("Number subed, now " ++ toString (wrap32 (num - k)))]⟩,
          by simp [handle_got_number, hc, hpa], rfl, fun h => Option.noConfusion h⟩

/-- Every text-bearing message handled by `handle_start` succeeds, sends
exactly one reply, and keeps the state when the text is not a number. -/
lemma handle_start_total (t : String) :
    ∃ out, handle_start (some t) = .ok out ∧ out.sends.length = 1 ∧
      (parseI32 t = none → out.store = .keep) := by
  cases hpt : parseI32 t with
  | none =>
    exact ⟨⟨.keep, [plainReply "Please, send me a number"]⟩,
      by simp [handle_start, hpt], rfl, fun _ => rfl⟩
  | some m =>
    exact ⟨⟨.put (.GotNumber m),
      [plainReply ("Remembered number " ++ toString m ++ ". Now use /get or /reset")]⟩,
      by simp [handle_start, hpt], rfl, fun h => Option.noConfusion h⟩

/-- C8 (amended): for every reachable dialogue state and every message event
that carries a text payload and is not an `/add`//`/sub` with an unparsable
argument, handling succeeds with a defined storage effect and exactly one
reply, and whenever the input is unrecognized by the state's own handler —
not an integer in `Start`, not a command in the payload-bearing states — the
step is a self-loop leaving the state unchanged. -/
theorem c8_totality_on_text (bn : String) (s : State) (hr : Reachable bn s) (t : String)
    (hgood : badArith t bn = false) :
    ∃ out, messageStep s (some t) bn = .ok out ∧ out.sends.length = 1 ∧
      (recognizedInput s t bn = false → nextState s out.store = s) := by
  cases s with
  | BattlePlayer => exact absurd rfl (reachable_ne_battlePlayer bn _ hr)
  | Start =>
    obtain ⟨out, h1, h2, h3⟩ := handle_start_total t
    refine ⟨out, h1, h2, fun hu => ?_⟩
    cases hp : parseI32 t with
    | some m => simp [recognizedInput, hp] at hu
    | none => rw [h3 hp]; rfl
  | GotNumber n =>
    obtain ⟨out, h1, h2, h3⟩ := handle_got_number_total n t bn hgood
    refine ⟨out, h1, h2, fun hu => ?_⟩
    cases hc : parseCommand t bn with
    | some cmd => simp [recognizedInput, hc] at hu
    | none => rw [h3 hc]; rfl
  | AddNumber n =>
    obtain ⟨out, h1, h2, h3⟩ := handle_got_number_total n t bn hgood
    refine ⟨out, h1, h2, fun hu => ?_⟩
    cases hc : parseCommand t bn with
    | some cmd => simp [recognizedInput, hc] at hu
    | none => rw [h3 hc]; rfl
  | SubNumber n =>
    obtain ⟨out, h1, h2, h3⟩ := handle_got_number_total n t bn hgood
    refine ⟨out, h1, h2, fun hu => ?_⟩
    cases hc : parseCommand t bn with
    | some cmd => simp [recognizedInput, hc] at hu
    | none => rw [h3 hc]; rfl

/-- Witness for C8 at two reachable states: `GotNumber 3` (reached from
`Start` by the message "3") receiving the unrecognized numeric text "5" —
a non-vacuous self-loop — and `Start` receiving the unrecognized text
"hello". -/
theorem c8_totality_on_text_witness :
    (∃ out, messageStep (.GotNumber 3) (some "5") "testbot" = .ok out ∧
      out.sends.length = 1 ∧
      (recognizedInput (.GotNumber 3) "5" "testbot" = false →
        nextState (.GotNumber 3) out.store = .GotNumber 3)) ∧
    (∃ out, messageStep .Start (some "hello") "testbot" = .ok out ∧
      out.sends.length = 1 ∧
      (recognizedInput .Start "hello" "testbot" = false →
        nextState .Start out.store = .Start)) ∧
    recognizedInput (.GotNumber 3) "5" "testbot" = false ∧
    recognizedInput .Start "hello" "testbot" = false :=
  ⟨c8_totality_on_text "testbot" (.GotNumber 3)
      (Reachable.step Reachable.start
        (rfl : messageStep .Start (some "3") "testbot" = .ok
          ⟨.put (.GotNumber 3),
            [plainReply ("Remembered number " ++ toString (3 : Int) ++
              ". Now use /get or /reset")]⟩))
      "5" rfl,
   c8_totality_on_text "testbot" .Start Reachable.start "hello" rfl,
   rfl, rfl⟩

/-- C8 counterexample: a message with no text payload (a sticker, a photo)
panics at `msg.text().unwrap()` instead of yielding a defined next state and
reply — handled in `Start` it aborts with the modelled panic. -/
theorem c8_no_text_counterexample :
    messageStep .Start none "testbot" = .error .panicNoText ∧
    messageStep (.GotNumber 5) none "testbot" = .error .panicNoText :=
  ⟨rfl, rfl⟩

end TgBoard
